import Mathlib

/-!
Verification of the orchestration script `src/reproduce_figures.py`.

The script validates that four required input files exist in a data directory,
creates an output directory on demand, constructs a `DataReader` from the external
`postprocessing` module, builds figures 2-5 and saves them as PNG files.

We embed the script shallowly:
* a filesystem is an abstract state (`FS`) of directory entries and regular files
  (file contents abstracted as `Nat`);
* the external `postprocessing` collaborator (out of scope of this repository) is a
  parameter (`Postprocessing`) whose operations either succeed or raise an exception;
* a run produces the final filesystem, a trace of observable events (stdout prints and
  side-effecting calls, in order) and an `Outcome` (graceful `sys.exit`, an uncaught
  exception propagating to the process boundary, or normal completion).
-/

namespace ReproFig

/-- A filesystem path, as its list of components. -/
abbrev FsPath := List String

/-- Model of `Path.joinpath` with a single plain filename component. -/
def joinpath (p : FsPath) (fname : String) : FsPath := p ++ [fname]

/-- Abstract filesystem state: directory entries plus regular files with contents
(contents abstracted as `Nat`). -/
structure FS where
  dirs : List FsPath
  files : List (FsPath × Nat)
deriving Repr, DecidableEq

/-- Model of `Path.exists`: true when any entry — directory or regular file — is
present at `p`. This mirrors `pathlib`, whose `exists()` does not distinguish
entry kinds. -/
def pathExists (fs : FS) (p : FsPath) : Bool :=
  fs.dirs.contains p || fs.files.any (fun e => e.1 == p)

/-- Content of the regular file at `p`, if one exists. -/
def lookupFile (fs : FS) (p : FsPath) : Option Nat :=
  (fs.files.find? (fun e => e.1 == p)).map (fun e => e.2)

/-- Write content `c` at path `p`, silently overwriting any existing file there. -/
def writeFile (fs : FS) (p : FsPath) (c : Nat) : FS :=
  { fs with files := (p, c) :: fs.files.filter (fun e => !(e.1 == p)) }

/-- All nonempty initial segments of a path: its ancestors and the path itself. -/
def initSegs (p : FsPath) : List FsPath :=
  (List.range p.length).map (fun k => p.take (k + 1))

/-- Effect of a successful `Path.mkdir(parents=True)`: the directory and any missing
ancestor directories are created. -/
def mkdirRaw (fs : FS) (p : FsPath) : FS :=
  { fs with dirs := fs.dirs ++ (initSegs p).filter (fun q => !(pathExists fs q)) }

/-- Model of `Path.mkdir(parents=True)`: raises `FileExistsError` when the target
path already exists, otherwise creates the directory and missing parents. -/
def mkdir (fs : FS) (p : FsPath) : Except String FS :=
  if pathExists fs p then .error "FileExistsError" else .ok (mkdirRaw fs p)

/-- The four required input data filenames (source line 27). -/
def required_filenames : List String :=
  ["dynamic_txyz.txt", "mxs.npy", "mys.npy", "mzs.npy"]

/-- Model of `str()` on a path: components joined with slashes. -/
def pathToString (p : FsPath) : String := String.intercalate "/" p

/-- Python `str` of a list of filenames, as interpolated by `format` on line 35. -/
def filenamesRepr (fnames : List String) : String :=
  "[" ++ String.intercalate ", " (fnames.map (fun f => "\x27" ++ f ++ "\x27")) ++ "]"

/-- Fixed text of the missing-data diagnostic before the data directory. -/
def msgHead : String := "Could not find input data in the following directory:\n\n   "

/-- Fixed text of the missing-data diagnostic after the data directory, including the
required-filenames list and the hint about the --data-dir option. -/
def msgTail : String :=
  ".\n\nPlease make sure this directory exists and contains the following\nfiles: " ++
  filenamesRepr required_filenames ++
  "\n\nYou can use \x27--data-dir\x27 to specify a different input data directory\n" ++
  "(run \x27python reproduce_figures.py --help\x27 for details).\n"

/-- The diagnostic printed by `check_input_data_exists` (lines 30-35). -/
def missing_data_message (data_dir : FsPath) : String :=
  msgHead ++ pathToString data_dir ++ msgTail

/-- Lines 23-36: check that all required input files exist. Returns `some msg` when the
function prints `msg` and calls `sys.exit()` (some file is absent), `none` when all
required files exist (no output, execution continues). -/
def check_input_data_exists (fs : FS) (data_dir : FsPath) : Option String :=
  if !(required_filenames.all (fun fname => pathExists fs (joinpath data_dir fname))) then
    some (missing_data_message data_dir)
  else none

/-- Lines 62-63: create the output directory (with missing parents) when it does not
already exist. An `Except` result records whether the underlying `mkdir` raised. -/
def prepare_output_dir (fs : FS) (output_dir : FsPath) : Except String FS :=
  if pathExists fs output_dir then .ok fs else mkdir fs output_dir

/-- Outcome of a process run. `exited c` models `sys.exit` — graceful termination with
exit status `c` (a bare `sys.exit()` gives status 0, a non-error exit). `raised e`
models an uncaught exception propagating to the process boundary (the runtime then
reports it and exits with a nonzero/error status). `completed` is a normal finish. -/
inductive Outcome where
  | exited (code : Nat)
  | raised (e : String)
  | completed
deriving Repr, DecidableEq

/-- Observable events of a run, in order: stdout prints and side-effecting calls. -/
inductive Event where
  | print (msg : String)
  | validateInput (data_dir : FsPath)
  | mkdirOutput (p : FsPath)
  | constructReader (data_dir : FsPath) (data_format : String)
  | buildFigure (n : Nat)
  | saveFigure (n : Nat) (p : FsPath)
deriving Repr, DecidableEq

/-- Abstract reader object produced by `DataReader`. -/
abbrev Reader := Nat

/-- Abstract in-memory figure object. -/
abbrev Figure := Nat

/-- Interface of the external `postprocessing` module (outside this repository):
`DataReader` construction, the four figure builders and `Figure.savefig` may each
either succeed or raise an exception; `savefig` yields the rendered image bytes
(abstracted as `Nat`). The orchestration script treats all of these as opaque. -/
structure Postprocessing where
  dataReader : FsPath → String → Except String Reader
  make_figure_2 : Reader → Except String Figure
  make_figure_3 : Reader → Except String Figure
  make_figure_4 : Reader → Except String Figure
  make_figure_5 : Reader → Except String Figure
  savefig : Figure → Except String Nat

/-- Fixed text printed on lines 65-67. -/
def using_dirs_message : String :=
  "Using the following data and output directories \n" ++
  "(run \x27python reproduce_figures.py --help\x27 to see \n" ++
  "how you can change these).\n"

/-- Text printed on line 69 (with the resolved data directory interpolated). -/
def input_dir_message (p : FsPath) : String :=
  "Input data directory:\n   " ++ pathToString p ++ "\n"

/-- Text printed on line 70 (with the resolved output directory interpolated). -/
def output_dir_message (p : FsPath) : String :=
  "Output directory:\n   " ++ pathToString p ++ "\n"

/-- Text printed on line 76. -/
def generating_message : String := "Generating plots..."

/-- Text printed on line 90. -/
def done_message : String := "Done."

/-- Text printed on line 91. -/
def success_message : String := "Plots have been successfully generated in output directory."

/-- The fixed output path of figure `n`: file `figure_n.png` inside the output
directory (lines 85-88). -/
def figure_path (output_dir : FsPath) (n : Nat) : FsPath :=
  joinpath output_dir ("figure_" ++ toString n ++ ".png")

/-- Lines 74-88: construct the `DataReader`, build figures 2-5 in order, then save
them in order under their fixed filenames. Returns the final filesystem, the events
of this phase, and `some e` when one of the steps raised exception `e` (the script
has no handler, so the phase stops at the first raise). -/
def generate_and_save (pp : Postprocessing) (fs : FS) (data_dir output_dir : FsPath) :
    FS × List Event × Option String :=
  match pp.dataReader data_dir "OOMMF" with
  | .error e => (fs, [.constructReader data_dir "OOMMF"], some e)
  | .ok reader =>
  let ev0 : List Event := [.constructReader data_dir "OOMMF", .print generating_message]
  match pp.make_figure_2 reader with
  | .error e => (fs, ev0 ++ [.buildFigure 2], some e)
  | .ok fig2 =>
  match pp.make_figure_3 reader with
  | .error e => (fs, ev0 ++ [.buildFigure 2, .buildFigure 3], some e)
  | .ok fig3 =>
  match pp.make_figure_4 reader with
  | .error e => (fs, ev0 ++ [.buildFigure 2, .buildFigure 3, .buildFigure 4], some e)
  | .ok fig4 =>
  match pp.make_figure_5 reader with
  | .error e =>
      (fs, ev0 ++ [.buildFigure 2, .buildFigure 3, .buildFigure 4, .buildFigure 5], some e)
  | .ok fig5 =>
  let evb : List Event :=
    ev0 ++ [.buildFigure 2, .buildFigure 3, .buildFigure 4, .buildFigure 5]
  match pp.savefig fig2 with
  | .error e => (fs, evb ++ [.saveFigure 2 (figure_path output_dir 2)], some e)
  | .ok c2 =>
  let fsa := writeFile fs (figure_path output_dir 2) c2
  match pp.savefig fig3 with
  | .error e =>
      (fsa, evb ++ [.saveFigure 2 (figure_path output_dir 2),
                    .saveFigure 3 (figure_path output_dir 3)], some e)
  | .ok c3 =>
  let fsb := writeFile fsa (figure_path output_dir 3) c3
  match pp.savefig fig4 with
  | .error e =>
      (fsb, evb ++ [.saveFigure 2 (figure_path output_dir 2),
                    .saveFigure 3 (figure_path output_dir 3),
                    .saveFigure 4 (figure_path output_dir 4)], some e)
  | .ok c4 =>
  let fsc := writeFile fsb (figure_path output_dir 4) c4
  match pp.savefig fig5 with
  | .error e =>
      (fsc, evb ++ [.saveFigure 2 (figure_path output_dir 2),
                    .saveFigure 3 (figure_path output_dir 3),
                    .saveFigure 4 (figure_path output_dir 4),
                    .saveFigure 5 (figure_path output_dir 5)], some e)
  | .ok c5 =>
  let fsd := writeFile fsc (figure_path output_dir 5) c5
  (fsd, evb ++ [.saveFigure 2 (figure_path output_dir 2),
                .saveFigure 3 (figure_path output_dir 3),
                .saveFigure 4 (figure_path output_dir 4),
                .saveFigure 5 (figure_path output_dir 5)], none)

/-- Result of a run of the script. -/
structure RunResult where
  fs : FS
  events : List Event
  outcome : Outcome
deriving Repr, DecidableEq

/-- Lines 50-91: the body of `reproduce_figures`, given the resolved option values.
`resolve` is a parameter modelling `Path.resolve` (absolute-path normalisation done
by the operating system, irrelevant to control flow). -/
def reproduce_figures (pp : Postprocessing) (resolve : FsPath → FsPath) (fs : FS)
    (data_dir output_dir : FsPath) : RunResult :=
  match check_input_data_exists fs data_dir with
  | some msg => ⟨fs, [.validateInput data_dir, .print msg], .exited 0⟩
  | none =>
    let prep : Except String (FS × List Event) :=
      if pathExists fs output_dir then .ok (fs, [])
      else (mkdir fs output_dir).map (fun fs1 => (fs1, [Event.mkdirOutput output_dir]))
    match prep with
    | .error e => ⟨fs, [.validateInput data_dir, .mkdirOutput output_dir], .raised e⟩
    | .ok (fs1, evMk) =>
      let evPr : List Event :=
        [.print using_dirs_message,
         .print (input_dir_message (resolve data_dir)),
         .print (output_dir_message (resolve output_dir))]
      match generate_and_save pp fs1 data_dir output_dir with
      | (fs2, evGen, some e) =>
          ⟨fs2, [Event.validateInput data_dir] ++ evMk ++ evPr ++ evGen, .raised e⟩
      | (fs2, evGen, none) =>
          ⟨fs2, [Event.validateInput data_dir] ++ evMk ++ evPr ++ evGen ++
                [.print done_message, .print success_message], .completed⟩

/-- Default value of the --data-dir option (lines 40-44): the resolved script
directory `here` (line 20) joined with the fixed relative fragment. `joinpath` on a
relative fragment does not collapse the leading dot-dot component. -/
def default_data_dir (here : FsPath) : FsPath :=
  here ++ ["..", "micromagnetic_simulation_data", "generated_data", "oommf"]

/-- Default value of the --output-dir option (lines 45-49). -/
def default_output_dir (here : FsPath) : FsPath :=
  here ++ ["..", "figures", "generated_plots"]

/-- Resolution of the two click options: an explicitly given value wins, otherwise
the fixed default relative to the script location is used. -/
def resolve_options (here : FsPath) (data_dir_opt output_dir_opt : Option FsPath) :
    FsPath × FsPath :=
  (data_dir_opt.getD (default_data_dir here), output_dir_opt.getD (default_output_dir here))

/-- Substring test on strings, via contiguous-sublist membership of the character
lists. -/
def containsStr (s sub : String) : Bool := decide (sub.data <:+: s.data)

/-- A postprocessing collaborator for concrete runs in which every step succeeds. -/
def ppOk : Postprocessing :=
  ⟨fun _ _ => .ok 0, fun _ => .ok 2, fun _ => .ok 3, fun _ => .ok 4, fun _ => .ok 5,
   fun f => .ok (f + 100)⟩

/-- A postprocessing collaborator whose `DataReader` construction raises the
configuration error for an unsupported data format. -/
def ppBadFormat : Postprocessing :=
  ⟨fun _ _ => .error "ValueError: Data format not supported", fun _ => .ok 2,
   fun _ => .ok 3, fun _ => .ok 4, fun _ => .ok 5, fun f => .ok (f + 100)⟩

end ReproFig

namespace ReproFig

/-! Helper lemmas about substring containment. -/

theorem containsStr_iff (s sub : String) : containsStr s sub = true ↔ sub.data <:+: s.data := by
  simp [containsStr]

theorem containsStr_mid (a x b : String) : containsStr (a ++ x ++ b) x = true := by
  rw [containsStr_iff]
  exact ⟨a.data, b.data, by simp [String.data_append]⟩

theorem containsStr_append_left (a b f : String) (h : containsStr b f = true) :
    containsStr (a ++ b) f = true := by
  rw [containsStr_iff] at h ⊢
  exact h.trans ⟨a.data, [], by simp [String.data_append]⟩

end ReproFig

namespace ReproFig

/-- Concrete data directory used by witnesses. -/
def wDataDir : FsPath := ["data"]

/-- Concrete output directory used by witnesses. -/
def wOutDir : FsPath := ["out"]

/-- A filesystem holding all four required input files and the output directory. -/
def wFsFull : FS :=
  ⟨[["out"]],
   [(["data", "dynamic_txyz.txt"], 10), (["data", "mxs.npy"], 11),
    (["data", "mys.npy"], 12), (["data", "mzs.npy"], 13)]⟩

/-- A filesystem in which one required input file (`mzs.npy`) is absent. -/
def wFsMissing : FS :=
  ⟨[["out"]],
   [(["data", "dynamic_txyz.txt"], 10), (["data", "mxs.npy"], 11),
    (["data", "mys.npy"], 12)]⟩

/-- C9: with no explicit options the data directory defaults to
`../micromagnetic_simulation_data/generated_data/oommf/` relative to the script
location and the output directory defaults to `../figures/generated_plots/` relative
to the script location; each option, when given, overrides its default. -/
theorem C9_cli_defaults_and_overrides (here p q : FsPath) :
    resolve_options here none none =
      (here ++ ["..", "micromagnetic_simulation_data", "generated_data", "oommf"],
       here ++ ["..", "figures", "generated_plots"]) ∧
    resolve_options here (some p) none = (p, default_output_dir here) ∧
    resolve_options here none (some q) = (default_data_dir here, q) ∧
    resolve_options here (some p) (some q) = (p, q) := by
  simp [resolve_options, default_data_dir, default_output_dir]

/-- C10: the input check tests only path existence, not entry kind: any directory
entry bearing a required name satisfies `pathExists`, so a data directory whose four
required names are all borne by directory entries is accepted by
`check_input_data_exists`. -/
theorem C10_any_entry_kind_accepted (fs : FS) (data_dir : FsPath)
    (h : ∀ f ∈ required_filenames, joinpath data_dir f ∈ fs.dirs) :
    (∀ p ∈ fs.dirs, pathExists fs p = true) ∧
    check_input_data_exists fs data_dir = none := by
  have hex : ∀ p ∈ fs.dirs, pathExists fs p = true := by
    intro p hp
    simp [pathExists]
    left
    exact hp
  refine ⟨hex, ?_⟩
  have hall : required_filenames.all
      (fun fname => pathExists fs (joinpath data_dir fname)) = true := by
    rw [List.all_eq_true]
    intro f hf
    exact hex _ (h f hf)
  simp [check_input_data_exists, hall]

/-- C10 witness: a data directory whose four required names are all directories. -/
theorem C10_any_entry_kind_accepted_witness :
    (∀ f ∈ required_filenames, joinpath ["d"] f ∈
      (FS.mk [["d", "dynamic_txyz.txt"], ["d", "mxs.npy"], ["d", "mys.npy"],
              ["d", "mzs.npy"]] []).dirs) ∧
    ((∀ p ∈ (FS.mk [["d", "dynamic_txyz.txt"], ["d", "mxs.npy"], ["d", "mys.npy"],
              ["d", "mzs.npy"]] []).dirs,
        pathExists (FS.mk [["d", "dynamic_txyz.txt"], ["d", "mxs.npy"], ["d", "mys.npy"],
              ["d", "mzs.npy"]] []) p = true) ∧
      check_input_data_exists (FS.mk [["d", "dynamic_txyz.txt"], ["d", "mxs.npy"],
              ["d", "mys.npy"], ["d", "mzs.npy"]] []) ["d"] = none) :=
  ⟨by decide, C10_any_entry_kind_accepted _ _ (by decide)⟩

/-- C5: for a data directory in which all four required files exist (their contents
are never inspected), the validator accepts: it returns no diagnostic (no output, no
exit) and the run never terminates through the validator exit. -/
theorem C5_validator_accepts_complete_dir (pp : Postprocessing)
    (resolve : FsPath → FsPath) (fs : FS) (data_dir output_dir : FsPath)
    (h : ∀ f ∈ required_filenames, pathExists fs (joinpath data_dir f) = true) :
    check_input_data_exists fs data_dir = none ∧
    ∀ c, (reproduce_figures pp resolve fs data_dir output_dir).outcome ≠
      Outcome.exited c := by
  have hall : required_filenames.all
      (fun fname => pathExists fs (joinpath data_dir fname)) = true := by
    rw [List.all_eq_true]; exact h
  have hchk : check_input_data_exists fs data_dir = none := by
    simp [check_input_data_exists, hall]
  refine ⟨hchk, ?_⟩
  intro c
  simp only [reproduce_figures, hchk]
  split
  · simp
  · split
    · simp
    · simp

/-- C5 witness: the complete concrete data directory is accepted. -/
theorem C5_validator_accepts_complete_dir_witness :
    (∀ f ∈ required_filenames, pathExists wFsFull (joinpath wDataDir f) = true) ∧
    (check_input_data_exists wFsFull wDataDir = none ∧
     ∀ c, (reproduce_figures ppOk id wFsFull wDataDir wOutDir).outcome ≠
       Outcome.exited c) :=
  ⟨by decide, C5_validator_accepts_complete_dir ppOk id wFsFull wDataDir wOutDir (by decide)⟩

end ReproFig

namespace ReproFig

set_option maxRecDepth 40000 in
/-- C1: whenever at least one required input file is absent, the run prints the
diagnostic — which names the expected data directory, names every missing file (the
full required list is printed) and hints at the --data-dir override — and then
terminates gracefully via `sys.exit()` with exit status 0, not by an exception. -/
theorem C1_missing_input_graceful_exit (pp : Postprocessing)
    (resolve : FsPath → FsPath) (fs : FS) (data_dir output_dir : FsPath)
    (h : ∃ f ∈ required_filenames, pathExists fs (joinpath data_dir f) = false) :
    (reproduce_figures pp resolve fs data_dir output_dir).outcome = Outcome.exited 0 ∧
    (reproduce_figures pp resolve fs data_dir output_dir).events =
      [Event.validateInput data_dir, Event.print (missing_data_message data_dir)] ∧
    containsStr (missing_data_message data_dir) (pathToString data_dir) = true ∧
    (∀ f ∈ required_filenames, pathExists fs (joinpath data_dir f) = false →
      containsStr (missing_data_message data_dir) f = true) ∧
    containsStr (missing_data_message data_dir) "--data-dir" = true := by
  have hall : required_filenames.all
      (fun fname => pathExists fs (joinpath data_dir fname)) = false := by
    rw [List.all_eq_false]
    rcases h with ⟨f, hf, hfe⟩
    exact ⟨f, hf, by simp [hfe]⟩
  have hchk : check_input_data_exists fs data_dir =
      some (missing_data_message data_dir) := by
    simp [check_input_data_exists, hall]
  refine ⟨by simp [reproduce_figures, hchk], by simp [reproduce_figures, hchk], ?_, ?_, ?_⟩
  · simp only [missing_data_message]
    exact containsStr_mid _ _ _
  · intro f hf _
    simp only [missing_data_message]
    apply containsStr_append_left
    have hf4 : f = "dynamic_txyz.txt" ∨ f = "mxs.npy" ∨ f = "mys.npy" ∨
        f = "mzs.npy" := by simpa [required_filenames] using hf
    rcases hf4 with rfl | rfl | rfl | rfl <;> decide
  · simp only [missing_data_message]
    apply containsStr_append_left
    decide

/-- C1 witness: the concrete directory missing `mzs.npy` leads to the graceful
diagnostic exit. -/
theorem C1_missing_input_graceful_exit_witness :
    (∃ f ∈ required_filenames, pathExists wFsMissing (joinpath wDataDir f) = false) ∧
    ((reproduce_figures ppOk id wFsMissing wDataDir wOutDir).outcome =
        Outcome.exited 0 ∧
     (reproduce_figures ppOk id wFsMissing wDataDir wOutDir).events =
        [Event.validateInput wDataDir, Event.print (missing_data_message wDataDir)] ∧
     containsStr (missing_data_message wDataDir) (pathToString wDataDir) = true ∧
     (∀ f ∈ required_filenames, pathExists wFsMissing (joinpath wDataDir f) = false →
       containsStr (missing_data_message wDataDir) f = true) ∧
     containsStr (missing_data_message wDataDir) "--data-dir" = true) :=
  ⟨by decide, C1_missing_input_graceful_exit ppOk id wFsMissing wDataDir wOutDir (by decide)⟩

/-- C2: when the validator rejects (a required file is absent), the filesystem is
left unchanged — in particular no output directory is created — and the trace
contains no `DataReader` construction and no directory creation: validation runs
strictly before either. -/
theorem C2_rejection_before_side_effects (pp : Postprocessing)
    (resolve : FsPath → FsPath) (fs : FS) (data_dir output_dir : FsPath)
    (h : ∃ f ∈ required_filenames, pathExists fs (joinpath data_dir f) = false) :
    (reproduce_figures pp resolve fs data_dir output_dir).fs = fs ∧
    (∀ d fmt, Event.constructReader d fmt ∉
      (reproduce_figures pp resolve fs data_dir output_dir).events) ∧
    (∀ p, Event.mkdirOutput p ∉
      (reproduce_figures pp resolve fs data_dir output_dir).events) := by
  have hall : required_filenames.all
      (fun fname => pathExists fs (joinpath data_dir fname)) = false := by
    rw [List.all_eq_false]
    rcases h with ⟨f, hf, hfe⟩
    exact ⟨f, hf, by simp [hfe]⟩
  have hchk : check_input_data_exists fs data_dir =
      some (missing_data_message data_dir) := by
    simp [check_input_data_exists, hall]
  refine ⟨by simp [reproduce_figures, hchk], ?_, ?_⟩
  · intro d fmt
    simp [reproduce_figures, hchk]
  · intro p
    simp [reproduce_figures, hchk]

/-- C2 witness: with `mzs.npy` absent, the filesystem is untouched and neither a
reader construction nor a directory creation appears in the trace. -/
theorem C2_rejection_before_side_effects_witness :
    (∃ f ∈ required_filenames, pathExists wFsMissing (joinpath wDataDir f) = false) ∧
    ((reproduce_figures ppOk id wFsMissing wDataDir wOutDir).fs = wFsMissing ∧
     (∀ d fmt, Event.constructReader d fmt ∉
       (reproduce_figures ppOk id wFsMissing wDataDir wOutDir).events) ∧
     (∀ p, Event.mkdirOutput p ∉
       (reproduce_figures ppOk id wFsMissing wDataDir wOutDir).events)) :=
  ⟨by decide, C2_rejection_before_side_effects ppOk id wFsMissing wDataDir wOutDir (by decide)⟩

end ReproFig

namespace ReproFig

/-- Creating directories never removes an existing entry. -/
theorem pathExists_mkdirRaw_mono (fs : FS) (p q : FsPath)
    (h : pathExists fs q = true) : pathExists (mkdirRaw fs p) q = true := by
  simp only [pathExists, mkdirRaw, Bool.or_eq_true] at h ⊢
  rcases h with h | h
  · left
    have : q ∈ fs.dirs := by simp_all
    simp [List.mem_append, this]
  · right
    exact h

/-- After `mkdir(parents=True)` every initial segment of the created path exists. -/
theorem pathExists_mkdirRaw_of_mem_initSegs (fs : FS) (p q : FsPath)
    (hq : q ∈ initSegs p) : pathExists (mkdirRaw fs p) q = true := by
  by_cases h : pathExists fs q = true
  · exact pathExists_mkdirRaw_mono fs p q h
  · have hb : pathExists fs q = false := by simpa using h
    have hmem : q ∈ (initSegs p).filter (fun r => !(pathExists fs r)) :=
      List.mem_filter.mpr ⟨hq, by simp [hb]⟩
    have : q ∈ (mkdirRaw fs p).dirs := by
      simp only [mkdirRaw, List.mem_append]
      right
      exact hmem
    simp only [pathExists, Bool.or_eq_true]
    left
    simp_all

/-- The created path itself is an initial segment of itself (when nonempty). -/
theorem self_mem_initSegs (p : FsPath) (h : p ≠ []) : p ∈ initSegs p := by
  have hpos : 0 < p.length := List.length_pos.mpr h
  refine List.mem_map.mpr ⟨p.length - 1, List.mem_range.mpr (by omega), ?_⟩
  have h1 : p.length - 1 + 1 = p.length := by omega
  rw [h1, List.take_length]

/-- C4: output directory preparation is idempotent. On a path that does not yet
exist, the first call succeeds and creates the directory together with all its
initial segments (missing parents); a second call on the resulting state finds the
directory, performs no `mkdir`, raises no error and leaves the state unchanged. -/
theorem C4_prepare_output_dir_idempotent (fs : FS) (p : FsPath)
    (hne : p ≠ []) (h : pathExists fs p = false) :
    ∃ fs1, prepare_output_dir fs p = Except.ok fs1 ∧
      pathExists fs1 p = true ∧
      (∀ k, k < p.length → pathExists fs1 (p.take (k + 1)) = true) ∧
      prepare_output_dir fs1 p = Except.ok fs1 := by
  have hx : pathExists (mkdirRaw fs p) p = true :=
    pathExists_mkdirRaw_of_mem_initSegs fs p p (self_mem_initSegs p hne)
  refine ⟨mkdirRaw fs p, ?_, hx, ?_, ?_⟩
  · simp [prepare_output_dir, mkdir, h]
  · intro k hk
    exact pathExists_mkdirRaw_of_mem_initSegs fs p _
      (List.mem_map.mpr ⟨k, List.mem_range.mpr hk, rfl⟩)
  · simp [prepare_output_dir, hx]

/-- C4 witness: preparing a fresh two-component output directory creates it (and the
parent) and a second preparation is a no-op without error. -/
theorem C4_prepare_output_dir_idempotent_witness :
    (["a", "b"] : FsPath) ≠ [] ∧ pathExists (FS.mk [] []) ["a", "b"] = false ∧
    ∃ fs1, prepare_output_dir (FS.mk [] []) ["a", "b"] = Except.ok fs1 ∧
      pathExists fs1 ["a", "b"] = true ∧
      (∀ k, k < (["a", "b"] : FsPath).length →
        pathExists fs1 ((["a", "b"] : FsPath).take (k + 1)) = true) ∧
      prepare_output_dir fs1 ["a", "b"] = Except.ok fs1 :=
  ⟨by decide, by decide,
   C4_prepare_output_dir_idempotent (FS.mk [] []) ["a", "b"] (by decide) (by decide)⟩

end ReproFig

namespace ReproFig

/-- Saving at a path makes its content the file content there (overwrite). -/
theorem lookupFile_writeFile_self {fs : FS} {p : FsPath} {c : Nat} :
    lookupFile (writeFile fs p c) p = some c := by
  simp [lookupFile, writeFile]

/-- Helper: filtering out entries at `p` does not change lookups at `q ≠ p`. -/
theorem find_filter_ne (l : List (FsPath × Nat)) (p q : FsPath) (h : q ≠ p) :
    (l.filter (fun e => !(e.1 == p))).find? (fun e => e.1 == q) =
      l.find? (fun e => e.1 == q) := by
  induction l with
  | nil => simp
  | cons a t ih =>
    have hpq : ((p == q) : Bool) = false := by
      simp only [beq_eq_false_iff_ne]
      exact fun hh => h hh.symm
    by_cases hap : a.1 = p
    · have haq : (a.1 == q) = false := by
        simp only [beq_eq_false_iff_ne]
        rw [hap]
        exact fun hh => h hh.symm
      simp [List.filter_cons, hap, List.find?_cons, haq, ih, hpq]
    · by_cases haq : a.1 = q
      · simp [List.filter_cons, hap, List.find?_cons, haq, ih, hpq, h]
      · simp [List.filter_cons, hap, List.find?_cons, haq, ih, hpq, h]

/-- Saving at a path leaves every other file unchanged. -/
theorem lookupFile_writeFile_ne {fs : FS} {p q : FsPath} {c : Nat} (h : q ≠ p) :
    lookupFile (writeFile fs p c) q = lookupFile fs q := by
  have hqp : ((p == q) : Bool) = false := by
    simp only [beq_eq_false_iff_ne]
    exact fun hh => h hh.symm
  simp [lookupFile, writeFile, List.find?_cons, hqp, find_filter_ne fs.files p q h]

/-- On an all-successful run of the generation phase, the result is the four files
written in order 2,3,4,5 and the full linear event trace, with no exception. -/
theorem generate_and_save_ok (pp : Postprocessing) (fs : FS) (d o : FsPath)
    (reader fig2 fig3 fig4 fig5 c2 c3 c4 c5 : Nat)
    (hrd : pp.dataReader d "OOMMF" = Except.ok reader)
    (h2 : pp.make_figure_2 reader = Except.ok fig2)
    (h3 : pp.make_figure_3 reader = Except.ok fig3)
    (h4 : pp.make_figure_4 reader = Except.ok fig4)
    (h5 : pp.make_figure_5 reader = Except.ok fig5)
    (s2 : pp.savefig fig2 = Except.ok c2)
    (s3 : pp.savefig fig3 = Except.ok c3)
    (s4 : pp.savefig fig4 = Except.ok c4)
    (s5 : pp.savefig fig5 = Except.ok c5) :
    generate_and_save pp fs d o =
      (writeFile (writeFile (writeFile (writeFile fs
          (figure_path o 2) c2) (figure_path o 3) c3) (figure_path o 4) c4)
          (figure_path o 5) c5,
       [Event.constructReader d "OOMMF", Event.print generating_message,
        Event.buildFigure 2, Event.buildFigure 3, Event.buildFigure 4,
        Event.buildFigure 5,
        Event.saveFigure 2 (figure_path o 2), Event.saveFigure 3 (figure_path o 3),
        Event.saveFigure 4 (figure_path o 4), Event.saveFigure 5 (figure_path o 5)],
       none) := by
  simp [generate_and_save, hrd, h2, h3, h4, h5, s2, s3, s4, s5]

/-- Whatever the generation phase does — succeed or stop at any raising step — it
never touches a file other than the four fixed figure paths. -/
theorem generate_and_save_frame (pp : Postprocessing) (fs : FS) (d o q : FsPath)
    (h2 : q ≠ figure_path o 2) (h3 : q ≠ figure_path o 3)
    (h4 : q ≠ figure_path o 4) (h5 : q ≠ figure_path o 5) :
    lookupFile (generate_and_save pp fs d o).1 q = lookupFile fs q := by
  unfold generate_and_save
  repeat' split
  all_goals
    simp [lookupFile_writeFile_ne h2, lookupFile_writeFile_ne h3,
          lookupFile_writeFile_ne h4, lookupFile_writeFile_ne h5]

end ReproFig

namespace ReproFig

/-- Distinct filenames joined to the same directory give distinct paths. -/
theorem joinpath_ne_of_ne (o : FsPath) {s t : String} (h : s ≠ t) :
    joinpath o s ≠ joinpath o t := by
  simp only [joinpath]
  intro heq
  simp at heq
  exact h heq

/-- C3: any exception raised by `DataReader` construction, figure building or figure
saving — including the configuration error for an unsupported data format — is not
caught: the run terminates with that exception propagating (an error outcome, neither
a graceful exit nor completion). -/
theorem C3_exceptions_propagate (pp : Postprocessing) (resolve : FsPath → FsPath)
    (fs fs1 fs2 : FS) (data_dir output_dir : FsPath) (ev : List Event) (e : String)
    (hval : check_input_data_exists fs data_dir = none)
    (hprep : prepare_output_dir fs output_dir = Except.ok fs1)
    (hgen : generate_and_save pp fs1 data_dir output_dir = (fs2, ev, some e)) :
    (reproduce_figures pp resolve fs data_dir output_dir).outcome = Outcome.raised e ∧
    (∀ c, (reproduce_figures pp resolve fs data_dir output_dir).outcome ≠
      Outcome.exited c) ∧
    (reproduce_figures pp resolve fs data_dir output_dir).outcome ≠
      Outcome.completed := by
  by_cases hex : pathExists fs output_dir
  · have hfs1 : fs1 = fs := by
      simp [prepare_output_dir, hex] at hprep
      exact hprep.symm
    subst hfs1
    refine ⟨?_, ?_, ?_⟩ <;> simp [reproduce_figures, hval, hex, hgen]
  · have hex' : pathExists fs output_dir = false := by simpa using hex
    have hfs1 : fs1 = mkdirRaw fs output_dir := by
      simp [prepare_output_dir, mkdir, hex'] at hprep
      exact hprep.symm
    subst hfs1
    refine ⟨?_, ?_, ?_⟩ <;> simp [reproduce_figures, hval, hex', mkdir, Except.map, hgen]

/-- C3 witness: an unsupported data format raised at `DataReader` construction
propagates out of a run on a complete data directory. -/
theorem C3_exceptions_propagate_witness :
    check_input_data_exists wFsFull wDataDir = none ∧
    prepare_output_dir wFsFull wOutDir = Except.ok wFsFull ∧
    generate_and_save ppBadFormat wFsFull wDataDir wOutDir =
      (wFsFull, [Event.constructReader wDataDir "OOMMF"],
       some "ValueError: Data format not supported") ∧
    ((reproduce_figures ppBadFormat id wFsFull wDataDir wOutDir).outcome =
        Outcome.raised "ValueError: Data format not supported" ∧
     (∀ c, (reproduce_figures ppBadFormat id wFsFull wDataDir wOutDir).outcome ≠
        Outcome.exited c) ∧
     (reproduce_figures ppBadFormat id wFsFull wDataDir wOutDir).outcome ≠
        Outcome.completed) :=
  ⟨by decide, rfl, by decide,
   C3_exceptions_propagate ppBadFormat id wFsFull wFsFull wFsFull wDataDir wOutDir
     [Event.constructReader wDataDir "OOMMF"] "ValueError: Data format not supported"
     (by decide) rfl (by decide)⟩

end ReproFig

namespace ReproFig

/-- C6: a successful run is strictly linear: validate, ensure the output directory
(created only when absent), print both resolved directory paths, construct the
`DataReader` exactly once, build figures 2,3,4,5 (each builder once, reader as sole
input) all before any save, then save the four figures, then print the completion
messages. The full trace is exactly this fixed sequence. -/
theorem C6_linear_orchestration (pp : Postprocessing) (resolve : FsPath → FsPath)
    (fs : FS) (data_dir output_dir : FsPath)
    (reader fig2 fig3 fig4 fig5 c2 c3 c4 c5 : Nat)
    (hval : check_input_data_exists fs data_dir = none)
    (hrd : pp.dataReader data_dir "OOMMF" = Except.ok reader)
    (h2 : pp.make_figure_2 reader = Except.ok fig2)
    (h3 : pp.make_figure_3 reader = Except.ok fig3)
    (h4 : pp.make_figure_4 reader = Except.ok fig4)
    (h5 : pp.make_figure_5 reader = Except.ok fig5)
    (s2 : pp.savefig fig2 = Except.ok c2)
    (s3 : pp.savefig fig3 = Except.ok c3)
    (s4 : pp.savefig fig4 = Except.ok c4)
    (s5 : pp.savefig fig5 = Except.ok c5) :
    (reproduce_figures pp resolve fs data_dir output_dir).events =
      [Event.validateInput data_dir] ++
      (if pathExists fs output_dir then [] else [Event.mkdirOutput output_dir]) ++
      [Event.print using_dirs_message,
       Event.print (input_dir_message (resolve data_dir)),
       Event.print (output_dir_message (resolve output_dir)),
       Event.constructReader data_dir "OOMMF",
       Event.print generating_message,
       Event.buildFigure 2, Event.buildFigure 3, Event.buildFigure 4,
       Event.buildFigure 5,
       Event.saveFigure 2 (figure_path output_dir 2),
       Event.saveFigure 3 (figure_path output_dir 3),
       Event.saveFigure 4 (figure_path output_dir 4),
       Event.saveFigure 5 (figure_path output_dir 5),
       Event.print done_message, Event.print success_message] ∧
    (reproduce_figures pp resolve fs data_dir output_dir).outcome =
      Outcome.completed := by
  have hgen : ∀ fs0 : FS, generate_and_save pp fs0 data_dir output_dir = _ :=
    fun fs0 => generate_and_save_ok pp fs0 data_dir output_dir reader
      fig2 fig3 fig4 fig5 c2 c3 c4 c5 hrd h2 h3 h4 h5 s2 s3 s4 s5
  by_cases hex : pathExists fs output_dir
  · constructor <;> simp [reproduce_figures, hval, hex, hgen]
  · have hex' : pathExists fs output_dir = false := by simpa using hex
    constructor <;>
      simp [reproduce_figures, hval, hex', mkdir, Except.map, hgen]

/-- C6 witness: a fully successful concrete run produces the exact linear trace. -/
theorem C6_linear_orchestration_witness :
    check_input_data_exists wFsFull wDataDir = none ∧
    ppOk.dataReader wDataDir "OOMMF" = Except.ok 0 ∧
    ppOk.make_figure_2 0 = Except.ok 2 ∧
    ppOk.make_figure_3 0 = Except.ok 3 ∧
    ppOk.make_figure_4 0 = Except.ok 4 ∧
    ppOk.make_figure_5 0 = Except.ok 5 ∧
    ppOk.savefig 2 = Except.ok 102 ∧
    ppOk.savefig 3 = Except.ok 103 ∧
    ppOk.savefig 4 = Except.ok 104 ∧
    ppOk.savefig 5 = Except.ok 105 ∧
    ((reproduce_figures ppOk id wFsFull wDataDir wOutDir).events =
      [Event.validateInput wDataDir] ++
      (if pathExists wFsFull wOutDir then [] else [Event.mkdirOutput wOutDir]) ++
      [Event.print using_dirs_message,
       Event.print (input_dir_message (id wDataDir)),
       Event.print (output_dir_message (id wOutDir)),
       Event.constructReader wDataDir "OOMMF",
       Event.print generating_message,
       Event.buildFigure 2, Event.buildFigure 3, Event.buildFigure 4,
       Event.buildFigure 5,
       Event.saveFigure 2 (figure_path wOutDir 2),
       Event.saveFigure 3 (figure_path wOutDir 3),
       Event.saveFigure 4 (figure_path wOutDir 4),
       Event.saveFigure 5 (figure_path wOutDir 5),
       Event.print done_message, Event.print success_message] ∧
     (reproduce_figures ppOk id wFsFull wDataDir wOutDir).outcome =
       Outcome.completed) :=
  ⟨by decide, rfl, rfl, rfl, rfl, rfl, rfl, rfl, rfl, rfl,
   C6_linear_orchestration ppOk id wFsFull wDataDir wOutDir 0 2 3 4 5 102 103 104 105
     (by decide) rfl rfl rfl rfl rfl rfl rfl rfl rfl⟩

end ReproFig

namespace ReproFig

/-- Recogniser for figure-save events in a trace. -/
def isSaveEvent : Event → Bool
  | Event.saveFigure _ _ => true
  | _ => false

/-- C7: a successful run writes exactly four image files, under the fixed names
`figure_2.png` .. `figure_5.png`, all inside the output directory, and each save
overwrites whatever file may already be at that path (the final content is the newly
rendered image unconditionally). -/
theorem C7_exactly_four_files_written (pp : Postprocessing) (resolve : FsPath → FsPath)
    (fs : FS) (data_dir output_dir : FsPath)
    (reader fig2 fig3 fig4 fig5 c2 c3 c4 c5 : Nat)
    (hval : check_input_data_exists fs data_dir = none)
    (hrd : pp.dataReader data_dir "OOMMF" = Except.ok reader)
    (h2 : pp.make_figure_2 reader = Except.ok fig2)
    (h3 : pp.make_figure_3 reader = Except.ok fig3)
    (h4 : pp.make_figure_4 reader = Except.ok fig4)
    (h5 : pp.make_figure_5 reader = Except.ok fig5)
    (s2 : pp.savefig fig2 = Except.ok c2)
    (s3 : pp.savefig fig3 = Except.ok c3)
    (s4 : pp.savefig fig4 = Except.ok c4)
    (s5 : pp.savefig fig5 = Except.ok c5) :
    ((reproduce_figures pp resolve fs data_dir output_dir).events.filter isSaveEvent) =
      [Event.saveFigure 2 (joinpath output_dir "figure_2.png"),
       Event.saveFigure 3 (joinpath output_dir "figure_3.png"),
       Event.saveFigure 4 (joinpath output_dir "figure_4.png"),
       Event.saveFigure 5 (joinpath output_dir "figure_5.png")] ∧
    lookupFile (reproduce_figures pp resolve fs data_dir output_dir).fs
      (joinpath output_dir "figure_2.png") = some c2 ∧
    lookupFile (reproduce_figures pp resolve fs data_dir output_dir).fs
      (joinpath output_dir "figure_3.png") = some c3 ∧
    lookupFile (reproduce_figures pp resolve fs data_dir output_dir).fs
      (joinpath output_dir "figure_4.png") = some c4 ∧
    lookupFile (reproduce_figures pp resolve fs data_dir output_dir).fs
      (joinpath output_dir "figure_5.png") = some c5 := by
  have hgen : ∀ fs0 : FS, generate_and_save pp fs0 data_dir output_dir = _ :=
    fun fs0 => generate_and_save_ok pp fs0 data_dir output_dir reader
      fig2 fig3 fig4 fig5 c2 c3 c4 c5 hrd h2 h3 h4 h5 s2 s3 s4 s5
  have e2 : figure_path output_dir 2 = joinpath output_dir "figure_2.png" := by
    have hs : ("figure_" ++ toString (2 : Nat) ++ ".png" : String) = "figure_2.png" :=
      by decide
    simp [figure_path, hs]
  have e3 : figure_path output_dir 3 = joinpath output_dir "figure_3.png" := by
    have hs : ("figure_" ++ toString (3 : Nat) ++ ".png" : String) = "figure_3.png" :=
      by decide
    simp [figure_path, hs]
  have e4 : figure_path output_dir 4 = joinpath output_dir "figure_4.png" := by
    have hs : ("figure_" ++ toString (4 : Nat) ++ ".png" : String) = "figure_4.png" :=
      by decide
    simp [figure_path, hs]
  have e5 : figure_path output_dir 5 = joinpath output_dir "figure_5.png" := by
    have hs : ("figure_" ++ toString (5 : Nat) ++ ".png" : String) = "figure_5.png" :=
      by decide
    simp [figure_path, hs]
  have n23 : joinpath output_dir "figure_2.png" ≠ joinpath output_dir "figure_3.png" :=
    joinpath_ne_of_ne output_dir (by decide)
  have n24 : joinpath output_dir "figure_2.png" ≠ joinpath output_dir "figure_4.png" :=
    joinpath_ne_of_ne output_dir (by decide)
  have n25 : joinpath output_dir "figure_2.png" ≠ joinpath output_dir "figure_5.png" :=
    joinpath_ne_of_ne output_dir (by decide)
  have n34 : joinpath output_dir "figure_3.png" ≠ joinpath output_dir "figure_4.png" :=
    joinpath_ne_of_ne output_dir (by decide)
  have n35 : joinpath output_dir "figure_3.png" ≠ joinpath output_dir "figure_5.png" :=
    joinpath_ne_of_ne output_dir (by decide)
  have n45 : joinpath output_dir "figure_4.png" ≠ joinpath output_dir "figure_5.png" :=
    joinpath_ne_of_ne output_dir (by decide)
  cases hex : pathExists fs output_dir <;>
    refine ⟨?_, ?_, ?_, ?_, ?_⟩ <;>
    simp [reproduce_figures, hval, hex, mkdir, Except.map, hgen, isSaveEvent,
          e2, e3, e4, e5, lookupFile_writeFile_self,
          lookupFile_writeFile_ne n23, lookupFile_writeFile_ne n24,
          lookupFile_writeFile_ne n25, lookupFile_writeFile_ne n34,
          lookupFile_writeFile_ne n35, lookupFile_writeFile_ne n45]

/-- C7 witness: the concrete successful run writes exactly the four figure files. -/
theorem C7_exactly_four_files_written_witness :
    check_input_data_exists wFsFull wDataDir = none ∧
    ppOk.dataReader wDataDir "OOMMF" = Except.ok 0 ∧
    ppOk.make_figure_2 0 = Except.ok 2 ∧
    ppOk.make_figure_3 0 = Except.ok 3 ∧
    ppOk.make_figure_4 0 = Except.ok 4 ∧
    ppOk.make_figure_5 0 = Except.ok 5 ∧
    ppOk.savefig 2 = Except.ok 102 ∧
    ppOk.savefig 3 = Except.ok 103 ∧
    ppOk.savefig 4 = Except.ok 104 ∧
    ppOk.savefig 5 = Except.ok 105 ∧
    (((reproduce_figures ppOk id wFsFull wDataDir wOutDir).events.filter isSaveEvent) =
       [Event.saveFigure 2 (joinpath wOutDir "figure_2.png"),
        Event.saveFigure 3 (joinpath wOutDir "figure_3.png"),
        Event.saveFigure 4 (joinpath wOutDir "figure_4.png"),
        Event.saveFigure 5 (joinpath wOutDir "figure_5.png")] ∧
     lookupFile (reproduce_figures ppOk id wFsFull wDataDir wOutDir).fs
       (joinpath wOutDir "figure_2.png") = some 102 ∧
     lookupFile (reproduce_figures ppOk id wFsFull wDataDir wOutDir).fs
       (joinpath wOutDir "figure_3.png") = some 103 ∧
     lookupFile (reproduce_figures ppOk id wFsFull wDataDir wOutDir).fs
       (joinpath wOutDir "figure_4.png") = some 104 ∧
     lookupFile (reproduce_figures ppOk id wFsFull wDataDir wOutDir).fs
       (joinpath wOutDir "figure_5.png") = some 105) :=
  ⟨by decide, rfl, rfl, rfl, rfl, rfl, rfl, rfl, rfl, rfl,
   C7_exactly_four_files_written ppOk id wFsFull wDataDir wOutDir 0 2 3 4 5
     102 103 104 105 (by decide) rfl rfl rfl rfl rfl rfl rfl rfl rfl⟩

end ReproFig

namespace ReproFig

/-- A filesystem like `wFsFull` whose existing output directory also holds an
unrelated file `notes.txt`. -/
def wFsUnrelated : FS :=
  ⟨[["out"]],
   [(["out", "notes.txt"], 7),
    (["data", "dynamic_txyz.txt"], 10), (["data", "mxs.npy"], 11),
    (["data", "mys.npy"], 12), (["data", "mzs.npy"], 13)]⟩

/-- C8: for every run against an already-existing output directory, any file other
than the four named figure files — in particular any unrelated file in the output
directory — is neither deleted nor modified: its content after the run equals its
content before, whatever the run's outcome. -/
theorem C8_unrelated_files_preserved (pp : Postprocessing) (resolve : FsPath → FsPath)
    (fs : FS) (data_dir output_dir q : FsPath)
    (hex : pathExists fs output_dir = true)
    (h2 : q ≠ figure_path output_dir 2) (h3 : q ≠ figure_path output_dir 3)
    (h4 : q ≠ figure_path output_dir 4) (h5 : q ≠ figure_path output_dir 5) :
    lookupFile (reproduce_figures pp resolve fs data_dir output_dir).fs q =
      lookupFile fs q := by
  cases hchk : check_input_data_exists fs data_dir with
  | some msg => simp [reproduce_figures, hchk]
  | none =>
    have hframe := generate_and_save_frame pp fs data_dir output_dir q h2 h3 h4 h5
    rcases hgen : generate_and_save pp fs data_dir output_dir with ⟨fs2, evGen, oe⟩
    rw [hgen] at hframe
    simp only at hframe
    cases oe <;> simp [reproduce_figures, hchk, hex, hgen, hframe]

/-- C8 witness: a concrete successful run leaves an unrelated file in the existing
output directory untouched. -/
theorem C8_unrelated_files_preserved_witness :
    pathExists wFsUnrelated wOutDir = true ∧
    (["out", "notes.txt"] : FsPath) ≠ figure_path wOutDir 2 ∧
    (["out", "notes.txt"] : FsPath) ≠ figure_path wOutDir 3 ∧
    (["out", "notes.txt"] : FsPath) ≠ figure_path wOutDir 4 ∧
    (["out", "notes.txt"] : FsPath) ≠ figure_path wOutDir 5 ∧
    lookupFile (reproduce_figures ppOk id wFsUnrelated wDataDir wOutDir).fs
      ["out", "notes.txt"] = lookupFile wFsUnrelated ["out", "notes.txt"] :=
  ⟨by decide, by decide, by decide, by decide, by decide,
   C8_unrelated_files_preserved ppOk id wFsUnrelated wDataDir wOutDir
     ["out", "notes.txt"] (by decide) (by decide) (by decide) (by decide) (by decide)⟩

end ReproFig
